import Mathlib

/-!
Shallow embedding of `denorm/fields.py` (django-denorm): the three
denormalized field wrappers (`denormalized`/`DenormDBField`, `CountField`,
`CacheKeyField`), their constructor keyword handling, their `pre_save`
policies, signal registration in `contribute_to_class`, dependency
accumulation, and the South migration-introspection triples.
-/

namespace DjangoDenorm

/-- Values stored in a Python keyword-argument dictionary. -/
inductive Val where
  | vint : Int → Val
  | vbool : Bool → Val
  | vstr : String → Val
deriving DecidableEq, Repr

/-- A Python `**kwargs` dictionary: insertion-ordered association list with
unique keys; `dictSet` models `d[k] = v`, `dictPop` models `d.pop(k, ...)`. -/
abbrev Kwargs := List (String × Val)

/-- Lookup a key in a kwargs dict (`d[k]` / `d.get(k)`), first match. -/
def dictLookup (k : String) : Kwargs → Option Val
  | [] => none
  | (k', v) :: rest => if k' = k then some v else dictLookup k rest

/-- Membership test, models Python `k in d`. -/
def dictContains (k : String) (d : Kwargs) : Bool :=
  (dictLookup k d).isSome

/-- Models Python `d[k] = v`: overwrite in place if the key exists,
otherwise append at the end (insertion order). -/
def dictSet (k : String) (v : Val) : Kwargs → Kwargs
  | [] => [(k, v)]
  | (k', v') :: rest =>
      if k' = k then (k, v) :: rest else (k', v') :: dictSet k v rest

/-- Models Python `d.pop(k, default)`'s effect on the dict: remove the key. -/
def dictPop (k : String) : Kwargs → Kwargs
  | [] => []
  | (k', v') :: rest =>
      if k' = k then dictPop k rest else (k', v') :: dictPop k rest

theorem dictLookup_set_self (k : String) (v : Val) (d : Kwargs) :
    dictLookup k (dictSet k v d) = some v := by
  induction d with
  | nil => simp [dictSet, dictLookup]
  | cons p rest ih =>
      obtain ⟨k', v'⟩ := p
      by_cases h : k' = k
      · simp [dictSet, h, dictLookup]
      · simp [dictSet, h, dictLookup, ih]

theorem dictLookup_set_ne (k k' : String) (v : Val) (d : Kwargs) (h : k' ≠ k) :
    dictLookup k' (dictSet k v d) = dictLookup k' d := by
  induction d with
  | nil => simp [dictSet, dictLookup, Ne.symm h]
  | cons p rest ih =>
      obtain ⟨k₀, v₀⟩ := p
      by_cases h₀ : k₀ = k
      · subst h₀
        simp [dictSet, dictLookup, Ne.symm h]
      · simp [dictSet, h₀, dictLookup, ih]

theorem dictLookup_pop_self (k : String) (d : Kwargs) :
    dictLookup k (dictPop k d) = none := by
  induction d with
  | nil => simp [dictPop, dictLookup]
  | cons p rest ih =>
      obtain ⟨k₀, v₀⟩ := p
      by_cases h₀ : k₀ = k
      · simp [dictPop, h₀, ih]
      · simp [dictPop, h₀, dictLookup, ih]

theorem dictLookup_pop_ne (k k' : String) (d : Kwargs) (h : k' ≠ k) :
    dictLookup k' (dictPop k d) = dictLookup k' d := by
  induction d with
  | nil => simp [dictPop]
  | cons p rest ih =>
      obtain ⟨k₀, v₀⟩ := p
      by_cases h₀ : k₀ = k
      · subst h₀
        simp [dictPop, dictLookup, Ne.symm h, ih]
      · simp [dictPop, h₀, dictLookup, ih]

/-- Keyword mutation done by `deco` inside `denormalized` (fields.py lines
71-77): `kwargs["blank"] = True`, and `kwargs["null"] = True` when
`'default' not in kwargs`; the result is passed to `DenormDBField.__init__`. -/
def decoKwargs (kwargs : Kwargs) : Kwargs :=
  let k1 := dictSet "blank" (Val.vbool true) kwargs
  if dictContains "default" kwargs then k1 else dictSet "null" (Val.vbool true) k1

/-- Keyword handling of `DenormDBField.__init__` (fields.py lines 32-35):
`kwargs.pop('skip', None)` before delegating to `DBField.__init__`; the
returned dict is what the underlying `DBField` constructor receives. -/
def DenormDBField.initKwargs (kwargs : Kwargs) : Kwargs :=
  dictPop "skip" kwargs

/-- The keyword dict the underlying `DBField` constructor receives when the
`denormalized(DBField, ...)` decorator is applied: `deco`'s mutations
followed by `DenormDBField.__init__`'s pop. -/
def denormalizedForwardedKwargs (kwargs : Kwargs) : Kwargs :=
  DenormDBField.initKwargs (decoKwargs kwargs)

/-- Keyword handling of `CountField.__init__` (fields.py lines 87-104):
pops `skip` and `filter`, then sets `kwargs['default'] = 0` before
delegating to `PositiveIntegerField.__init__`. -/
def CountField.initKwargs (kwargs : Kwargs) : Kwargs :=
  dictSet "default" (Val.vint 0) (dictPop "filter" (dictPop "skip" kwargs))

/-- Keyword handling of `CacheKeyField.__init__` (fields.py lines 152-160):
sets `kwargs['default'] = 0` before delegating to `BigIntegerField.__init__`. -/
def CacheKeyField.initKwargs (kwargs : Kwargs) : Kwargs :=
  dictSet "default" (Val.vint 0) kwargs

/-- Errors an embedded operation can raise: `indexOutOfRange` models the
`IndexError` raised by `queryset[0]` when the read-back queryset is empty
(primary key not found); `computeFailed` models an exception raised inside
a user compute function. -/
inductive DBError where
  | indexOutOfRange : DBError
  | computeFailed : Nat → DBError
deriving DecidableEq, Repr

/-- A model instance as `pre_save` sees it: primary key, the denormalized
attribute (`self.attname`), and the in-process count of rows reachable
through the related manager (what an in-process recompute would use). -/
structure MInstance where
  pk : Nat
  attr : Int
  relCount : Int
deriving DecidableEq, Repr

/-- The persisted store as seen through the point-lookup query
`model.objects.filter(pk=...).values_list(attname, flat=True)`: maps a
primary key to the stored attribute value, `none` when no row exists. -/
abbrev Store := Nat → Option Int

/-- CountField.pre_save (fields.py lines 121-141). On `add` the value is
forced to `0`; otherwise the value is read back from the store for the
instance's primary key, where indexing the empty queryset with `[0]`
raises before `setattr` runs. Returns the (possibly updated) instance
together with the returned value or the raised error. -/
def CountField.pre_save (store : Store) (inst : MInstance) (add : Bool) :
    MInstance × Except DBError Int :=
  if add then
    ({ inst with attr := 0 }, .ok 0)
  else
    match store inst.pk with
    | some v => ({ inst with attr := v }, .ok v)
    | none => (inst, .error .indexOutOfRange)

/-- DenormDBField.pre_save (fields.py lines 53-59): `value =
self.denorm.func(model_instance)`, then `setattr`, then return `value`;
the `add` flag is ignored. The compute function may raise, modelled by
`Except`; a raise propagates before `setattr` runs. -/
def DenormDBField.pre_save (func : MInstance → Except DBError Int)
    (inst : MInstance) (_add : Bool) : MInstance × Except DBError Int :=
  match func inst with
  | .ok v => ({ inst with attr := v }, .ok v)
  | .error e => (inst, .error e)

/-- CacheKeyField.pre_save (fields.py lines 179-189). On `add` the
descriptor's compute function produces a fresh token; otherwise the token
is read back from the store for the primary key, `[0]` on an empty
queryset raising before `setattr` runs. -/
def CacheKeyField.pre_save (func : MInstance → Int) (store : Store)
    (inst : MInstance) (add : Bool) : MInstance × Except DBError Int :=
  if add then
    ({ inst with attr := func inst }, .ok (func inst))
  else
    match store inst.pk with
    | some v => ({ inst with attr := v }, .ok v)
    | none => (inst, .error .indexOutOfRange)

/-- The kind of lifecycle signal a handler is connected to. -/
inductive HookKind where
  | classPrepared : HookKind
  | preSaveSignal : HookKind
  | postSaveSignal : HookKind
deriving DecidableEq, Repr

/-- One entry of the signal registry: a (signal, handler identity, sender
type identity) triple, as in `signal.connect(handler, sender=cls)`. -/
structure Registration where
  hook : HookKind
  handler : Nat
  sender : Nat
deriving DecidableEq, Repr

/-- Modelled from the spec: the host framework's signal bus (an external
collaborator, `models.signals.*.connect`) registers a handler with
at-most-once semantics per (handler identity, subject-type) pair, so a
duplicate `connect` is a no-op, never an error. -/
def connect (reg : List Registration) (r : Registration) : List Registration :=
  if r ∈ reg then reg else reg ++ [r]

/-- Handler identity of the module-level `denorms.many_to_many_pre_save`. -/
def many_to_many_pre_save_handler : Nat := 0

/-- Handler identity of the module-level `denorms.many_to_many_post_save`. -/
def many_to_many_post_save_handler : Nat := 1

/-- Signal registrations performed by `DenormDBField.contribute_to_class`
(fields.py lines 47-50): `class_prepared.connect(self.denorm.setup, cls)`
(a per-field handler), then `pre_save.connect(denorms.many_to_many_pre_save,
cls)` and `post_save.connect(denorms.many_to_many_post_save, cls)`. -/
def DenormDBField.contribute_to_class (reg : List Registration)
    (setupHandler : Nat) (cls : Nat) : List Registration :=
  connect (connect (connect reg ⟨.classPrepared, setupHandler, cls⟩)
      ⟨.preSaveSignal, many_to_many_pre_save_handler, cls⟩)
    ⟨.postSaveSignal, many_to_many_post_save_handler, cls⟩

/-- Attaching one denormalized field after another to the same model class:
each field runs its `contribute_to_class` with its own denorm's setup
handler. -/
def attachFields (reg : List Registration) (setups : List Nat) (cls : Nat) :
    List Registration :=
  setups.foldl (fun r s => DenormDBField.contribute_to_class r s cls) reg

/-- Modelled from the spec: a `CacheKeyDependOnRelated` declaration (its
constructor lives in the `dependencies` module, outside `src/`): an
immutable record of the constructor arguments, plus the `fieldname` that
`contribute_to_class` assigns at attachment time. -/
structure CacheKeyDependOnRelated where
  payload : Nat
  fieldname : Option String
deriving DecidableEq, Repr

/-- The mutable state of a `CacheKeyField` before class attachment: its
accumulated dependency list. -/
structure CacheKeyFieldState where
  dependencies : List CacheKeyDependOnRelated
deriving DecidableEq, Repr

/-- CacheKeyField.depend_on_related (fields.py lines 162-168): appends
`CacheKeyDependOnRelated(*args, **kwargs)` to `self.dependencies`; the
constructor arguments are abstracted as the `payload`. -/
def CacheKeyField.depend_on_related (f : CacheKeyFieldState) (payload : Nat) :
    CacheKeyFieldState :=
  { f with dependencies := f.dependencies ++ [⟨payload, none⟩] }

/-- The dependency list handed to `BaseCacheKeyDenorm` by
`CacheKeyField.contribute_to_class` (fields.py lines 170-177): each
accumulated declaration with its `fieldname` set to the attached name. -/
def CacheKeyField.contribute_to_class_depend (f : CacheKeyFieldState)
    (name : String) : List CacheKeyDependOnRelated :=
  f.dependencies.map (fun d => { d with fieldname := some name })

/-- A field class as migration tooling sees it: its module path and its
class name (`DBField.__module__`, `DBField.__name__`). -/
structure FieldClass where
  modPath : String
  clsName : String
deriving DecidableEq, Repr

/-- DenormDBField.south_field_triple (fields.py lines 61-69): the dotted
path of the wrapped `DBField` class, with the args/kwargs produced by the
external South introspector for the field instance. -/
def DenormDBField.south_field_triple (DBField : FieldClass)
    (introspected : List Val × Kwargs) : String × List Val × Kwargs :=
  (DBField.modPath ++ "." ++ DBField.clsName, introspected)

/-- CountField.south_field_triple (fields.py lines 112-119):
`'.'.join(('django','db','models', PositiveIntegerField.__name__))` with
no positional args and `{'default': '0'}`. -/
def CountField.south_field_triple : String × List Val × Kwargs :=
  (String.intercalate "." ["django", "db", "models", "PositiveIntegerField"],
    [], [("default", Val.vstr "0")])

/-- CacheKeyField.south_field_triple (fields.py lines 191-198):
`'.'.join(('django','db','models', BigIntegerField.__name__))` with no
positional args and `{'default': '0'}`. -/
def CacheKeyField.south_field_triple : String × List Val × Kwargs :=
  (String.intercalate "." ["django", "db", "models", "BigIntegerField"],
    [], [("default", Val.vstr "0")])

/-- Claim C1: CountField.pre_save with add=True always writes 0 to the
attribute and returns 0, regardless of store and instance state; with
add=False it writes and returns exactly the persisted value for the
instance's primary key; neither path reads the in-process relation-manager
count (`relCount`). -/
theorem countField_pre_save_policy (store : Store) (inst : MInstance) :
    CountField.pre_save store inst true = ({ inst with attr := 0 }, .ok 0) ∧
    (∀ v : Int, store inst.pk = some v →
      CountField.pre_save store inst false = ({ inst with attr := v }, .ok v)) ∧
    (∀ (add : Bool) (c : Int),
      (CountField.pre_save store { inst with relCount := c } add).2 =
        (CountField.pre_save store inst add).2) := by
  refine ⟨rfl, fun v hv => by simp [CountField.pre_save, hv], fun add c => ?_⟩
  cases add
  · simp only [CountField.pre_save]
    cases store inst.pk <;> simp
  · simp [CountField.pre_save]

theorem countField_pre_save_policy_witness :
    CountField.pre_save (fun pk => if pk = 1 then some 5 else none) ⟨1, 9, 3⟩ false =
      ({ pk := 1, attr := 5, relCount := 3 }, .ok 5) :=
  (countField_pre_save_policy (fun pk => if pk = 1 then some 5 else none)
    ⟨1, 9, 3⟩).2.1 5 (by decide)

/-- Claim C2: DenormDBField.pre_save invokes the bound compute function on
the instance, writes the result to the attribute and returns it, on every
save — the `add` flag (INSERT or UPDATE) is irrelevant. -/
theorem denormDBField_pre_save_computes (func : MInstance → Except DBError Int)
    (inst : MInstance) (add : Bool) (v : Int) (h : func inst = .ok v) :
    DenormDBField.pre_save func inst add = ({ inst with attr := v }, .ok v) := by
  simp [DenormDBField.pre_save, h]

theorem denormDBField_pre_save_computes_witness :
    DenormDBField.pre_save (fun i => .ok (i.relCount + 1)) ⟨4, 0, 41⟩ false =
      ({ pk := 4, attr := 42, relCount := 41 }, .ok 42) :=
  denormDBField_pre_save_computes (fun i => .ok (i.relCount + 1)) ⟨4, 0, 41⟩
    false 42 rfl

/-- Claim C5: when the compute function raises, DenormDBField.pre_save
propagates the error and leaves the instance — in particular its
attribute — exactly as it was (the `setattr` never runs). -/
theorem denormDBField_pre_save_error_atomic (func : MInstance → Except DBError Int)
    (inst : MInstance) (add : Bool) (e : DBError) (h : func inst = .error e) :
    DenormDBField.pre_save func inst add = (inst, .error e) := by
  simp [DenormDBField.pre_save, h]

theorem denormDBField_pre_save_error_atomic_witness :
    DenormDBField.pre_save (fun _ => .error (.computeFailed 3)) ⟨1, 7, 2⟩ true =
      ({ pk := 1, attr := 7, relCount := 2 }, .error (.computeFailed 3)) :=
  denormDBField_pre_save_error_atomic (fun _ => .error (.computeFailed 3))
    ⟨1, 7, 2⟩ true (.computeFailed 3) rfl

/-- Claim C3: CacheKeyField.pre_save with add=True invokes the descriptor's
compute function and writes the fresh token to the attribute; with
add=False it writes back the persisted token for the primary key, and the
compute function is never invoked — the result does not depend on it. -/
theorem cacheKeyField_pre_save_policy (func : MInstance → Int) (store : Store)
    (inst : MInstance) :
    CacheKeyField.pre_save func store inst true =
      ({ inst with attr := func inst }, .ok (func inst)) ∧
    (∀ v : Int, store inst.pk = some v →
      CacheKeyField.pre_save func store inst false =
        ({ inst with attr := v }, .ok v)) ∧
    (∀ g : MInstance → Int,
      CacheKeyField.pre_save func store inst false =
        CacheKeyField.pre_save g store inst false) :=
  ⟨rfl, fun v hv => by simp [CacheKeyField.pre_save, hv], fun g => rfl⟩

theorem cacheKeyField_pre_save_policy_witness :
    CacheKeyField.pre_save (fun _ => 77) (fun pk => if pk = 2 then some 13 else none)
      ⟨2, 99, 0⟩ false = ({ pk := 2, attr := 13, relCount := 0 }, .ok 13) :=
  (cacheKeyField_pre_save_policy (fun _ => 77)
    (fun pk => if pk = 2 then some 13 else none) ⟨2, 99, 0⟩).2.1 13 (by decide)

/-- Claim C6: on UPDATE, when no persisted row exists for the instance's
primary key, both CountField.pre_save and CacheKeyField.pre_save raise the
distinguishable not-found error (the IndexError of indexing the empty
queryset) and leave the instance's attribute unwritten. -/
theorem readback_not_found_fatal (store : Store) (inst : MInstance)
    (h : store inst.pk = none) :
    CountField.pre_save store inst false = (inst, .error .indexOutOfRange) ∧
    ∀ func : MInstance → Int,
      CacheKeyField.pre_save func store inst false =
        (inst, .error .indexOutOfRange) :=
  ⟨by simp [CountField.pre_save, h], fun func => by simp [CacheKeyField.pre_save, h]⟩

theorem readback_not_found_fatal_witness :
    CountField.pre_save (fun _ => none) ⟨2, 11, 0⟩ false =
      ({ pk := 2, attr := 11, relCount := 0 }, .error .indexOutOfRange) ∧
    CacheKeyField.pre_save (fun _ => 77) (fun _ => none) ⟨2, 11, 0⟩ false =
      ({ pk := 2, attr := 11, relCount := 0 }, .error .indexOutOfRange) :=
  ⟨(readback_not_found_fatal (fun _ => none) ⟨2, 11, 0⟩ (by decide)).1,
   (readback_not_found_fatal (fun _ => none) ⟨2, 11, 0⟩ (by decide)).2 (fun _ => 77)⟩

/-- The pre-save many-to-many hook registration for a model class. -/
def m2mPreReg (cls : Nat) : Registration :=
  ⟨.preSaveSignal, many_to_many_pre_save_handler, cls⟩

/-- The post-save many-to-many hook registration for a model class. -/
def m2mPostReg (cls : Nat) : Registration :=
  ⟨.postSaveSignal, many_to_many_post_save_handler, cls⟩

theorem connect_mem_no_op (reg : List Registration) (r : Registration)
    (h : r ∈ reg) : connect reg r = reg := by
  simp [connect, h]

theorem count_connect_self (reg : List Registration) (r : Registration)
    (h : List.count r reg ≤ 1) : List.count r (connect reg r) = 1 := by
  by_cases hm : r ∈ reg
  · rw [connect_mem_no_op reg r hm]
    have hpos := List.count_pos_iff.mpr hm
    omega
  · have h0 : List.count r reg = 0 := List.count_eq_zero.mpr hm
    simp [connect, hm, h0]

theorem count_connect_ne (reg : List Registration) (r x : Registration)
    (h : x ≠ r) : List.count r (connect reg x) = List.count r reg := by
  by_cases hm : x ∈ reg
  · rw [connect_mem_no_op reg x hm]
  · have h1 : List.count r [x] = 0 := by
      refine List.count_eq_zero.mpr ?_
      simp [Ne.symm h]
    simp [connect, hm, h1]

theorem contribute_m2m_count (reg : List Registration) (s cls : Nat)
    (hpre : List.count (m2mPreReg cls) reg ≤ 1)
    (hpost : List.count (m2mPostReg cls) reg ≤ 1) :
    List.count (m2mPreReg cls) (DenormDBField.contribute_to_class reg s cls) = 1 ∧
    List.count (m2mPostReg cls) (DenormDBField.contribute_to_class reg s cls) = 1 := by
  simp only [m2mPreReg, m2mPostReg] at hpre hpost ⊢
  unfold DenormDBField.contribute_to_class
  constructor
  · rw [count_connect_ne _ _ _ (by simp)]
    rw [count_connect_self]
    rw [count_connect_ne _ _ _ (by simp)]
    exact hpre
  · rw [count_connect_self]
    rw [count_connect_ne _ _ _ (by simp)]
    rw [count_connect_ne _ _ _ (by simp)]
    exact hpost

theorem attachFields_preserves_one (setups : List Nat) (cls : Nat) :
    ∀ reg : List Registration,
      List.count (m2mPreReg cls) reg = 1 →
      List.count (m2mPostReg cls) reg = 1 →
      List.count (m2mPreReg cls) (attachFields reg setups cls) = 1 ∧
      List.count (m2mPostReg cls) (attachFields reg setups cls) = 1 := by
  induction setups with
  | nil => intro reg h1 h2; exact ⟨h1, h2⟩
  | cons s rest ih =>
      intro reg h1 h2
      have hc := contribute_m2m_count reg s cls (le_of_eq h1) (le_of_eq h2)
      exact ih (DenormDBField.contribute_to_class reg s cls) hc.1 hc.2

/-- Claim C4: attaching any nonempty collection of denormalized fields to
one model class yields exactly one many-to-many pre-save registration and
exactly one post-save registration for that class, and a duplicate
`connect` of an already-registered handler is a no-op, not an error. -/
theorem m2m_hook_registration_idempotent (setups : List Nat) (cls : Nat)
    (hne : setups ≠ []) :
    List.count (m2mPreReg cls) (attachFields [] setups cls) = 1 ∧
    List.count (m2mPostReg cls) (attachFields [] setups cls) = 1 ∧
    ∀ (reg : List Registration) (r : Registration), r ∈ reg → connect reg r = reg := by
  obtain ⟨s, rest, rfl⟩ := List.exists_cons_of_ne_nil hne
  have hc := contribute_m2m_count [] s cls (by simp) (by simp)
  have h := attachFields_preserves_one rest cls
    (DenormDBField.contribute_to_class [] s cls) hc.1 hc.2
  exact ⟨h.1, h.2, connect_mem_no_op⟩

theorem m2m_hook_registration_idempotent_witness :
    List.count (m2mPreReg 5) (attachFields [] [10, 11] 5) = 1 ∧
    List.count (m2mPostReg 5) (attachFields [] [10, 11] 5) = 1 :=
  ⟨(m2m_hook_registration_idempotent [10, 11] 5 (by decide)).1,
   (m2m_hook_registration_idempotent [10, 11] 5 (by decide)).2.1⟩

theorem foldl_depend_on_related (payloads : List Nat) :
    ∀ f : CacheKeyFieldState,
      (payloads.foldl CacheKeyField.depend_on_related f).dependencies =
        f.dependencies ++ payloads.map (fun p => ⟨p, none⟩) := by
  induction payloads with
  | nil => intro f; simp
  | cons p rest ih =>
      intro f
      simp [CacheKeyField.depend_on_related, ih, List.append_assoc]

/-- Claim C7: calling depend_on_related k times on a fresh CacheKeyField
accumulates exactly k dependency declarations, one per call and in call
order, and at class attachment the descriptor's dependency list is exactly
that accumulated list (each entry with its fieldname set to the attached
name). -/
theorem cacheKey_depend_accumulates (payloads : List Nat) (name : String) :
    (payloads.foldl CacheKeyField.depend_on_related ⟨[]⟩).dependencies =
      payloads.map (fun p => ⟨p, none⟩) ∧
    CacheKeyField.contribute_to_class_depend
        (payloads.foldl CacheKeyField.depend_on_related ⟨[]⟩) name =
      payloads.map (fun p => ⟨p, some name⟩) ∧
    (payloads.foldl CacheKeyField.depend_on_related ⟨[]⟩).dependencies.length =
      payloads.length := by
  have h := foldl_depend_on_related payloads ⟨[]⟩
  simp only [List.nil_append] at h
  refine ⟨h, ?_, by simp [h]⟩
  simp [CacheKeyField.contribute_to_class_depend, h, List.map_map]

/-- Claim C8: every south_field_triple reports the dotted path of the
underlying base field class — the wrapped DBField for DenormDBField,
PositiveIntegerField for CountField, BigIntegerField for CacheKeyField,
never the wrapper class — together with args/kwargs for recreating the
underlying column; the triples are independent of any wrapper state. -/
theorem south_field_triple_names_base_class :
    (∀ (B : FieldClass) (intro : List Val × Kwargs),
      DenormDBField.south_field_triple B intro =
        (B.modPath ++ "." ++ B.clsName, intro)) ∧
    CountField.south_field_triple =
      ("django.db.models.PositiveIntegerField", [], [("default", Val.vstr "0")]) ∧
    CacheKeyField.south_field_triple =
      ("django.db.models.BigIntegerField", [], [("default", Val.vstr "0")]) := by
  refine ⟨fun B intro => rfl, ?_, ?_⟩ <;> rfl

/-- Claim C9 counterexample: with `denormalized(DBField, skip=7, default=1,
null=True)`, the `skip` keyword is consumed by the wrapper rather than
forwarded unchanged, and the underlying constructor still receives
`null=True` although `default` was supplied. -/
theorem denormalized_kwargs_claim_cex :
    dictLookup "skip"
        (denormalizedForwardedKwargs
          [("skip", Val.vint 7), ("default", Val.vint 1), ("null", Val.vbool true)]) ≠
      dictLookup "skip"
        [("skip", Val.vint 7), ("default", Val.vint 1), ("null", Val.vbool true)] ∧
    dictContains "default"
        [("skip", Val.vint 7), ("default", Val.vint 1), ("null", Val.vbool true)] = true ∧
    dictLookup "null"
        (denormalizedForwardedKwargs
          [("skip", Val.vint 7), ("default", Val.vint 1), ("null", Val.vbool true)]) =
      some (Val.vbool true) := by
  decide

/-- Claim C9 (amended): the underlying field is always constructed with
blank=True; null is set to True whenever no `default` keyword was supplied
(when `default` is supplied, a caller-supplied `null` is forwarded as-is);
the `skip` keyword is consumed by the wrapper and never forwarded; all
arguments other than blank, null and skip reach the DBField constructor
unchanged. -/
theorem denormalized_kwargs_forwarding (kwargs : Kwargs) :
    dictLookup "blank" (denormalizedForwardedKwargs kwargs) = some (Val.vbool true) ∧
    (dictContains "default" kwargs = false →
      dictLookup "null" (denormalizedForwardedKwargs kwargs) = some (Val.vbool true)) ∧
    (dictContains "default" kwargs = true →
      dictLookup "null" (denormalizedForwardedKwargs kwargs) = dictLookup "null" kwargs) ∧
    dictLookup "skip" (denormalizedForwardedKwargs kwargs) = none ∧
    ∀ k : String, k ≠ "blank" → k ≠ "null" → k ≠ "skip" →
      dictLookup k (denormalizedForwardedKwargs kwargs) = dictLookup k kwargs := by
  simp only [denormalizedForwardedKwargs, DenormDBField.initKwargs, decoKwargs]
  refine ⟨?_, ?_, ?_, ?_, ?_⟩
  · by_cases hd : dictContains "default" kwargs = true
    · rw [if_pos hd, dictLookup_pop_ne "skip" "blank" _ (by decide)]
      exact dictLookup_set_self "blank" (Val.vbool true) kwargs
    · rw [if_neg hd, dictLookup_pop_ne "skip" "blank" _ (by decide),
        dictLookup_set_ne "null" "blank" (Val.vbool true) _ (by decide)]
      exact dictLookup_set_self "blank" (Val.vbool true) kwargs
  · intro h
    rw [if_neg (by simp [h]), dictLookup_pop_ne "skip" "null" _ (by decide)]
    exact dictLookup_set_self "null" (Val.vbool true) _
  · intro h
    rw [if_pos h, dictLookup_pop_ne "skip" "null" _ (by decide)]
    exact dictLookup_set_ne "blank" "null" (Val.vbool true) kwargs (by decide)
  · by_cases hd : dictContains "default" kwargs = true
    · rw [if_pos hd]
      exact dictLookup_pop_self "skip" _
    · rw [if_neg hd]
      exact dictLookup_pop_self "skip" _
  · intro k hb hn hs
    by_cases hd : dictContains "default" kwargs = true
    · rw [if_pos hd, dictLookup_pop_ne "skip" k _ hs]
      exact dictLookup_set_ne "blank" k (Val.vbool true) kwargs hb
    · rw [if_neg hd, dictLookup_pop_ne "skip" k _ hs,
        dictLookup_set_ne "null" k (Val.vbool true) _ hn]
      exact dictLookup_set_ne "blank" k (Val.vbool true) kwargs hb

theorem denormalized_kwargs_forwarding_witness :
    dictLookup "null" (denormalizedForwardedKwargs [("max_length", Val.vint 10)]) =
      some (Val.vbool true) ∧
    dictLookup "max_length" (denormalizedForwardedKwargs [("max_length", Val.vint 10)]) =
      dictLookup "max_length" [("max_length", Val.vint 10)] :=
  ⟨(denormalized_kwargs_forwarding [("max_length", Val.vint 10)]).2.1 (by decide),
   (denormalized_kwargs_forwarding [("max_length", Val.vint 10)]).2.2.2.2 "max_length"
     (by decide) (by decide) (by decide)⟩

/-- Claim C10: CountField.__init__ and CacheKeyField.__init__ force the
`default` keyword to 0 before delegating to the base field constructor,
overriding any caller-supplied default; CountField also removes `skip` and
`filter` so they never reach it; every other keyword is forwarded
unchanged. -/
theorem count_cachekey_init_kwargs (kwargs : Kwargs) :
    dictLookup "default" (CountField.initKwargs kwargs) = some (Val.vint 0) ∧
    dictLookup "skip" (CountField.initKwargs kwargs) = none ∧
    dictLookup "filter" (CountField.initKwargs kwargs) = none ∧
    (∀ k : String, k ≠ "default" → k ≠ "skip" → k ≠ "filter" →
      dictLookup k (CountField.initKwargs kwargs) = dictLookup k kwargs) ∧
    dictLookup "default" (CacheKeyField.initKwargs kwargs) = some (Val.vint 0) ∧
    ∀ k : String, k ≠ "default" →
      dictLookup k (CacheKeyField.initKwargs kwargs) = dictLookup k kwargs := by
  unfold CountField.initKwargs CacheKeyField.initKwargs
  refine ⟨dictLookup_set_self _ _ _, ?_, ?_, ?_, dictLookup_set_self _ _ _, ?_⟩
  · rw [dictLookup_set_ne "default" "skip" _ _ (by decide)]
    rw [dictLookup_pop_ne "filter" "skip" _ (by decide)]
    exact dictLookup_pop_self "skip" kwargs
  · rw [dictLookup_set_ne "default" "filter" _ _ (by decide)]
    exact dictLookup_pop_self "filter" _
  · intro k hd hs hf
    rw [dictLookup_set_ne "default" k _ _ hd]
    rw [dictLookup_pop_ne "filter" k _ hf]
    exact dictLookup_pop_ne "skip" k kwargs hs
  · intro k hd
    exact dictLookup_set_ne "default" k _ kwargs hd

theorem count_cachekey_init_kwargs_witness :
    dictLookup "default"
        (CountField.initKwargs
          [("default", Val.vint 5), ("skip", Val.vint 1), ("null", Val.vbool true)]) =
      some (Val.vint 0) ∧
    dictLookup "null"
        (CountField.initKwargs
          [("default", Val.vint 5), ("skip", Val.vint 1), ("null", Val.vbool true)]) =
      dictLookup "null" [("default", Val.vint 5), ("skip", Val.vint 1), ("null", Val.vbool true)] :=
  ⟨(count_cachekey_init_kwargs
      [("default", Val.vint 5), ("skip", Val.vint 1), ("null", Val.vbool true)]).1,
   (count_cachekey_init_kwargs
      [("default", Val.vint 5), ("skip", Val.vint 1), ("null", Val.vbool true)]).2.2.2.1 "null"
     (by decide) (by decide) (by decide)⟩

end DjangoDenorm
